import Mathlib

/-!
Verification of the geo proxy cache and the image ingest pipeline of the
cacao application, as a shallow embedding of the Go sources.

Source map:
* The geo cache (`geoCache.get`, `geoCache.set`, `geoCache.cleanupExpired`,
  the package-level counter `geoCacheSetCount`, and the composite
  `nominatimProxy`) comes from the handlers file containing the geo proxy.
* The image ingest pipeline (`processAndUploadImage`, with the constants
  `MaxUploadSize`, `MaxImageWidth`, `JpegQuality`, and the error value
  `httpError`) comes from the handlers file containing the upload code.

Time is modelled as `Int` nanoseconds, as in Go's `time.Time`/`time.Duration`;
`t.After(u)` is `u < t`.  The `sync.RWMutex` is not modelled: each operation is
embedded as a pure function on an explicit state, which also makes the
read-only character of `get` part of the model.  External I/O (the upstream
geocoding call, the storage upload) is modelled by oracle inputs describing
the outcome of each call the code would make.
-/

namespace Cacao

/-- One nanosecond-count hour, matching Go's `time.Hour`. -/
def hour : Int := 3600 * 1000000000

/-- A cache entry: raw body bytes plus an absolute expiry instant
(`geoCacheEntry` in the source). -/
structure geoCacheEntry where
  body : List Nat
  expiresAt : Int
deriving DecidableEq, Repr

/-- The cache store together with the package-level write counter
`geoCacheSetCount`.  The Go map `map[string]geoCacheEntry` is embedded as a
function from keys to optional entries. -/
structure GeoCacheState where
  entries : String → Option geoCacheEntry
  setCount : Nat

/-- The initial state: empty map, counter zero. -/
def emptyGeoCache : GeoCacheState := ⟨fun _ => none, 0⟩

namespace geoCache

/-- `geoCache.get`: returns the entry's body when the key is present and the
current time is not strictly after `expiresAt`; otherwise "not found".
In Go: `if !ok || time.Now().After(e.expiresAt) { return nil, false }`. -/
def get (c : GeoCacheState) (key : String) (now : Int) : Option (List Nat) :=
  match c.entries key with
  | none => none
  | some e => if e.expiresAt < now then none else some e.body

/-- `geoCache.cleanupExpired`: removes every entry whose expiry is strictly
before `now` (`if now.After(e.expiresAt) { delete(c.entries, k) }`). -/
def cleanupExpired (c : GeoCacheState) (now : Int) : GeoCacheState :=
  { c with entries := fun k =>
      match c.entries k with
      | none => none
      | some e => if e.expiresAt < now then none else some e }

/-- `geoCache.set`: installs `⟨body, now + ttl⟩` at `key`, increments the
write counter, and runs `cleanupExpired` when the new counter value is a
multiple of 50.  The returned `Bool` records whether the sweep ran. -/
def set (c : GeoCacheState) (key : String) (body : List Nat) (ttl now : Int) :
    GeoCacheState × Bool :=
  let c1 : GeoCacheState :=
    { entries := fun k => if k = key then some ⟨body, now + ttl⟩ else c.entries k,
      setCount := c.setCount + 1 }
  let doCleanup := c1.setCount % 50 == 0
  (if doCleanup then cleanupExpired c1 now else c1, doCleanup)

end geoCache

/-- One call of a sequence of `set` operations: key, body, ttl and the
instant at which the call happens. -/
structure SetCall where
  key : String
  body : List Nat
  ttl : Int
  now : Int

/-- Runs a sequence of `geoCache.set` calls, returning the final state and
the number of times the sweep (`cleanupExpired`) ran. -/
def setSeq (c : GeoCacheState) : List SetCall → GeoCacheState × Nat
  | [] => (c, 0)
  | a :: rest =>
    let p := geoCache.set c a.key a.body a.ttl a.now
    let q := setSeq p.1 rest
    (q.1, (if p.2 then 1 else 0) + q.2)

/- Basic lemmas about `set`. -/

theorem set_snd (c : GeoCacheState) (k : String) (b : List Nat) (ttl now : Int) :
    (geoCache.set c k b ttl now).2 = ((c.setCount + 1) % 50 == 0) := rfl

theorem cleanupExpired_setCount (c : GeoCacheState) (now : Int) :
    (geoCache.cleanupExpired c now).setCount = c.setCount := rfl

theorem set_setCount (c : GeoCacheState) (k : String) (b : List Nat) (ttl now : Int) :
    (geoCache.set c k b ttl now).1.setCount = c.setCount + 1 := by
  unfold geoCache.set
  dsimp only
  split
  · rfl
  · rfl

theorem set_entries_self (c : GeoCacheState) (k : String) (b : List Nat) (ttl now : Int)
    (h : ¬ now + ttl < now) :
    (geoCache.set c k b ttl now).1.entries k = some ⟨b, now + ttl⟩ := by
  unfold geoCache.set geoCache.cleanupExpired
  dsimp only
  split
  · simp [h]
  · simp

/-- Number of sweeps over a call sequence, in closed form: one sweep for each
multiple of 50 crossed by the counter. -/
theorem setSeq_sweeps (L : List SetCall) :
    ∀ c : GeoCacheState,
      (setSeq c L).2 = (c.setCount + L.length) / 50 - c.setCount / 50 := by
  induction L with
  | nil => intro c; simp [setSeq]
  | cons a L ih =>
    intro c
    show (if (geoCache.set c a.key a.body a.ttl a.now).2 then 1 else 0)
          + (setSeq (geoCache.set c a.key a.body a.ttl a.now).1 L).2
        = (c.setCount + (L.length + 1)) / 50 - c.setCount / 50
    rw [ih, set_setCount, set_snd]
    by_cases h : (c.setCount + 1) % 50 = 0
    · simp only [h, beq_self_eq_true, if_true]
      omega
    · have hb : ((c.setCount + 1) % 50 == 0) = false := by
        simp [h]
      rw [hb]
      simp only [Bool.false_eq_true, if_false]
      omega

/-!
The composite proxy operation `nominatimProxy`.  The outcome of the upstream
HTTP exchange is an oracle: `upstream i` is what the `i`-th call to
`geoHTTPClient.Do` (plus the subsequent `io.ReadAll`) would yield.  The code
makes at most one such call; the returned `Nat` counts the calls made.
-/

/-- Outcome of one upstream call: a transport-level failure of
`geoHTTPClient.Do`, or a response with its status code and the result of
reading its body (`none` models an `io.ReadAll` failure). -/
inductive UpstreamOutcome where
  | transportError
  | response (code : Nat) (body : Option (List Nat))

/-- What `nominatimProxy` writes back: either raw bytes (the cached or
upstream body) or the plain-text message of an `http.Error` call. -/
inductive ProxyBody where
  | data (bs : List Nat)
  | errorText (msg : String)
deriving DecidableEq

/-- The HTTP status and body the proxy writes to the client. -/
structure ProxyOutput where
  status : Nat
  body : ProxyBody
deriving DecidableEq

/-- `nominatimProxy`: serve from cache on a hit; otherwise build the outbound
request (`reqBuildOk` is the oracle for `http.NewRequestWithContext`), call
upstream once, and on a 200 response with non-empty body populate the cache
with a 24-hour TTL; the upstream status and body are echoed to the client.
Returns (new cache state, output written, number of upstream calls made). -/
def nominatimProxy (st : GeoCacheState) (url : String) (now : Int)
    (reqBuildOk : Bool) (upstream : Nat → UpstreamOutcome) :
    GeoCacheState × ProxyOutput × Nat :=
  match geoCache.get st url now with
  | some body => (st, ⟨200, .data body⟩, 0)
  | none =>
    if reqBuildOk then
      match upstream 0 with
      | .transportError =>
          (st, ⟨502, .errorText "Service géolocalisation indisponible"⟩, 1)
      | .response _code none =>
          (st, ⟨500, .errorText "Erreur lecture réponse geo"⟩, 1)
      | .response code (some body) =>
          let st2 := if code = 200 ∧ body ≠ [] then
              (geoCache.set st url body (24 * hour) now).1
            else st
          (st2, ⟨code, .data body⟩, 1)
    else
      (st, ⟨500, .errorText "Erreur requête geo"⟩, 0)

/-!
Image ingest pipeline (`processAndUploadImage`).
-/

/-- `MaxUploadSize = 10 << 20`. -/
def MaxUploadSize : Int := 10 * 2 ^ 20

/-- `MaxImageWidth = 1200`. -/
def MaxImageWidth : Nat := 1200

/-- `JpegQuality = 80`. -/
def JpegQuality : Nat := 80

/-- A decoded image: its bounds' width and height, and its pixel data
(abstract sample values). -/
structure GoImage where
  width : Nat
  height : Nat
  pixels : List Nat
deriving DecidableEq, Repr

/-- The container format reported by `image.Decode` (the stdlib registers
JPEG and PNG here); the code discards it. -/
inductive ImgFormat where
  | jpeg
  | png
deriving DecidableEq

/-- Encoded image bytes, tagged by the encoder that produced them. -/
inductive EncodedBytes where
  | jpegData (quality : Nat) (img : GoImage)
  | pngData (img : GoImage)
  | rawData (bs : List Nat)
deriving DecidableEq

/-- Whether a byte blob decodes as a valid JPEG. -/
def decodesAsJPEG : EncodedBytes → Bool
  | .jpegData _ _ => true
  | _ => false

/-- `jpeg.Encode` with the given quality option. -/
def jpegEncode (quality : Nat) (img : GoImage) : EncodedBytes :=
  .jpegData quality img

/-- Modelled from the spec: the resampling routine (`resize.Resize` with
target height 0, from the third-party nfnt/resize dependency) is not among
this repository's sources; per the spec it downsamples proportionally to the
target width, the output height computed to preserve the input proportions up
to rounding.  The resampled sample values themselves are abstracted. -/
def resizeToWidth (w : Nat) (img : GoImage) : GoImage :=
  ⟨w, (2 * w * img.height + img.width) / (2 * img.width), []⟩

/-- The pipeline's error taxonomy, one constructor per `return "", err` site
of `processAndUploadImage`; `uploadRejected` is the `httpError` value, which
captures the upstream status line and response body. -/
inductive IngestError where
  | configMissing
  | tooLarge
  | decodeError
  | encodeError
  | requestBuildError
  | transportError
  | uploadRejected (status : String) (body : String)
deriving DecidableEq

/-- The storage endpoint's response: numeric code, status line, body. -/
structure UploadResp where
  statusCode : Nat
  status : String
  body : String
deriving DecidableEq

/-- One invocation's inputs and oracle outcomes: environment configuration
(after trimming), the multipart header's declared size (`none` for a nil
header), the result of `image.Decode`, whether `jpeg.Encode` and
`http.NewRequestWithContext` succeed, the clock, and the storage endpoint's
response (`none` for a transport failure of `uploadHTTPClient.Do`). -/
structure IngestInput where
  supabaseURL : String
  jwtKey : String
  headerSize : Option Int
  decodeResult : Option (GoImage × ImgFormat)
  encodeOk : Bool
  reqBuildOk : Bool
  tastingID : String
  nowUnix : Int
  uploadResult : Option UploadResp

/-- `header != nil && header.Size > MaxUploadSize`. -/
def oversized : Option Int → Bool
  | some s => MaxUploadSize < s
  | none => false

/-- Execution trace of one pipeline run, recording what the claims need:
whether `image.Decode` was reached, the image handed to `jpeg.Encode`
(after the conditional resize), and the bytes handed to the upload request. -/
structure IngestTrace where
  decodeAttempted : Bool
  processedImage : Option GoImage
  uploadedBytes : Option EncodedBytes
deriving DecidableEq

/-- `processAndUploadImage`: config check, size guard, decode, conditional
resize at `MaxImageWidth`, mandatory JPEG re-encode at `JpegQuality`, then
the authenticated upload; non-2xx storage responses become `uploadRejected`
(the `httpError`), success returns the public URL. -/
def processAndUploadImage (inp : IngestInput) :
    Except IngestError String × IngestTrace :=
  if inp.supabaseURL = "" ∨ inp.jwtKey = "" then
    (.error .configMissing, ⟨false, none, none⟩)
  else if oversized inp.headerSize then
    (.error .tooLarge, ⟨false, none, none⟩)
  else
    match inp.decodeResult with
    | none => (.error .decodeError, ⟨true, none, none⟩)
    | some (img, _fmt) =>
      let img2 := if MaxImageWidth < img.width then resizeToWidth MaxImageWidth img else img
      if inp.encodeOk then
        let encoded := jpegEncode JpegQuality img2
        let fname := "tasting-" ++ inp.tastingID ++ "-" ++ toString inp.nowUnix ++ ".jpg"
        if inp.reqBuildOk then
          match inp.uploadResult with
          | none => (.error .transportError, ⟨true, some img2, some encoded⟩)
          | some resp =>
            if resp.statusCode < 200 ∨ 300 ≤ resp.statusCode then
              (.error (.uploadRejected resp.status resp.body), ⟨true, some img2, some encoded⟩)
            else
              (.ok (inp.supabaseURL ++ "/storage/v1/object/public/photos/" ++ fname),
               ⟨true, some img2, some encoded⟩)
        else (.error .requestBuildError, ⟨true, some img2, none⟩)
      else (.error .encodeError, ⟨true, some img2, none⟩)

/-!
Concrete instances used to instantiate the theorems.
-/

/-- A concrete cache state used to instantiate the cache theorems: an entry
at key "a" expiring at time 100, an entry at key "b" expiring at time 200. -/
def demoState : GeoCacheState :=
  ⟨fun k => if k = "a" then some ⟨[1], 100⟩
            else if k = "b" then some ⟨[2], 200⟩ else none, 7⟩

/-- The 150-call sequence used to instantiate C2. -/
def freshCalls : List SetCall := List.replicate 150 ⟨"k", [], 0, 0⟩

/-- An ingest input whose declared size exceeds 10 MiB. -/
def c7Input : IngestInput :=
  ⟨"https://sb", "key", some (10 * 2 ^ 20 + 1), some (⟨10, 10, []⟩, .jpeg),
   true, true, "t1", 0, none⟩

/-- An ingest input that succeeds end to end (small JPEG, storage says 200). -/
def okInput : IngestInput :=
  ⟨"https://sb", "key", some 5, some (⟨800, 600, [1, 2]⟩, .jpeg),
   true, true, "t1", 99, some ⟨200, "200 OK", ""⟩⟩

/-- An ingest input with an oversized (2400 px wide) decoded image. -/
def bigInput : IngestInput :=
  ⟨"https://sb", "key", some 5, some (⟨2400, 1000, [3]⟩, .jpeg),
   true, true, "t3", 0, some ⟨200, "200 OK", ""⟩⟩

/-- An ingest input whose storage endpoint answers 403. -/
def rejInput : IngestInput :=
  ⟨"https://sb", "key", some 5, some (⟨800, 600, []⟩, .png),
   true, true, "t2", 3, some ⟨403, "403 Forbidden", "denied"⟩⟩

/-!
Claim theorems.
-/

/-- C1 (amended): `geoCache.get` returns the stored entry while the current
time is at most (not strictly before) the stored expiry, and returns "not
found" once the current time is strictly greater than the stored expiry,
even if the entry was never explicitly evicted; absent keys always miss. -/
theorem lookup_expiry_boundary (c : GeoCacheState) (k : String) (now : Int) :
    (c.entries k = none → geoCache.get c k now = none) ∧
    (∀ e, c.entries k = some e →
      (now ≤ e.expiresAt → geoCache.get c k now = some e.body) ∧
      (e.expiresAt < now → geoCache.get c k now = none)) := by
  constructor
  · intro h
    simp [geoCache.get, h]
  · intro e he
    constructor
    · intro hle
      simp [geoCache.get, he, not_lt.mpr hle]
    · intro hlt
      simp [geoCache.get, he, hlt]

/-- C1 witness: on `demoState`, key "a" (expiry 100) is served at time 50 and
missed at time 150. -/
theorem lookup_expiry_boundary_witness :
    geoCache.get demoState "a" 50 = some [1] ∧
    geoCache.get demoState "a" 150 = none := by
  have h1 := (lookup_expiry_boundary demoState "a" 50).2 ⟨[1], 100⟩ (by decide)
  have h2 := (lookup_expiry_boundary demoState "a" 150).2 ⟨[1], 100⟩ (by decide)
  exact ⟨h1.1 (by decide), h2.2 (by decide)⟩

/-- C1 counterexample to the claim as stated: with current time equal to the
stored expiry (100 ≥ 100), the lookup still returns the entry, because the
source misses only when `time.Now().After(e.expiresAt)`, a strict
comparison. -/
theorem lookup_at_expiry_returns_entry :
    (100 : Int) ≥ 100 ∧ geoCache.get demoState "a" 100 = some [1] := by
  exact ⟨by decide, by decide⟩

/-- C2: the sweep runs exactly on every 50th `set` (the sweep count over any
call sequence is the number of multiples of 50 the counter crosses,
independent of keys, bodies, TTLs and times), and over 150 calls from a
fresh counter it runs exactly 3 times. -/
theorem sweep_cadence (c : GeoCacheState) (L : List SetCall) :
    (setSeq c L).2 = (c.setCount + L.length) / 50 - c.setCount / 50 ∧
    (c.setCount = 0 → L.length = 150 → (setSeq c L).2 = 3) := by
  refine ⟨setSeq_sweeps L c, ?_⟩
  intro h0 h150
  rw [setSeq_sweeps L c, h0, h150]

/-- C2 witness: 150 stores from a fresh counter sweep exactly 3 times. -/
theorem sweep_cadence_witness : (setSeq emptyGeoCache freshCalls).2 = 3 :=
  (sweep_cadence emptyGeoCache freshCalls).2 rfl (by simp [freshCalls])

/-- C3: from any cache state and any current time, storing
`"https://x/search?q=a" ↦ [0x7b, 0x7d]` with a 24-hour TTL makes an
immediate lookup return the bytes, and a lookup 25 hours later miss. -/
theorem store_lookup_roundtrip (c : GeoCacheState) (now : Int) :
    geoCache.get (geoCache.set c "https://x/search?q=a" [0x7b, 0x7d] (24 * hour) now).1
        "https://x/search?q=a" now = some [0x7b, 0x7d] ∧
    geoCache.get (geoCache.set c "https://x/search?q=a" [0x7b, 0x7d] (24 * hour) now).1
        "https://x/search?q=a" (now + 25 * hour) = none := by
  have hpos : (0 : Int) < hour := by norm_num [hour]
  have httl : ¬ now + 24 * hour < now := by omega
  have he := set_entries_self c "https://x/search?q=a" [0x7b, 0x7d] (24 * hour) now httl
  constructor
  · simp [geoCache.get, he, httl]
  · have hlt : now + 24 * hour < now + 25 * hour := by omega
    simp [geoCache.get, he, hlt]

/-- C10: the sweep is exact and lookups are pure reads: `cleanupExpired`
leaves the write counter unchanged, removes precisely the entries whose
expiry is strictly past, and leaves every other entry (and every absent key)
unchanged; an expired entry still present in the map is invisible to `get`,
while an unexpired one is served. -/
theorem cleanup_exact (c : GeoCacheState) (k : String) (now : Int) :
    (geoCache.cleanupExpired c now).setCount = c.setCount ∧
    (c.entries k = none → (geoCache.cleanupExpired c now).entries k = none) ∧
    (∀ e, c.entries k = some e →
      (e.expiresAt < now →
        geoCache.get c k now = none ∧
        (geoCache.cleanupExpired c now).entries k = none) ∧
      (¬ e.expiresAt < now →
        geoCache.get c k now = some e.body ∧
        (geoCache.cleanupExpired c now).entries k = some e)) := by
  refine ⟨rfl, ?_, ?_⟩
  · intro h
    simp [geoCache.cleanupExpired, h]
  · intro e he
    constructor
    · intro hexp
      exact ⟨by simp [geoCache.get, he, hexp],
             by simp [geoCache.cleanupExpired, he, hexp]⟩
    · intro hexp
      exact ⟨by simp [geoCache.get, he, hexp],
             by simp [geoCache.cleanupExpired, he, hexp]⟩

/-- C10 witness: sweeping `demoState` at time 150 removes the expired "a"
entry, keeps the unexpired "b" entry, and `get` sees exactly the same
distinction without modifying anything. -/
theorem cleanup_exact_witness :
    geoCache.get demoState "a" 150 = none ∧
    (geoCache.cleanupExpired demoState 150).entries "a" = none ∧
    geoCache.get demoState "b" 150 = some [2] ∧
    (geoCache.cleanupExpired demoState 150).entries "b" = some ⟨[2], 200⟩ ∧
    (geoCache.cleanupExpired demoState 150).setCount = demoState.setCount := by
  have ha := ((cleanup_exact demoState "a" 150).2.2 ⟨[1], 100⟩ (by decide)).1 (by decide)
  have hb := ((cleanup_exact demoState "b" 150).2.2 ⟨[2], 200⟩ (by decide)).2 (by decide)
  exact ⟨ha.1, ha.2, hb.1, hb.2, (cleanup_exact demoState "b" 150).1⟩

/-- C4 (amended): on a cache miss with the outbound request built, when the
upstream response's body is read without error the proxy echoes the upstream
status code and body verbatim, and it populates the cache (24-hour TTL) if
and only if the status is 200 and the body is non-empty; when the body read
fails, or on a transport failure, nothing is stored. -/
theorem proxy_populate_passthrough (st : GeoCacheState) (url : String) (now : Int)
    (f : Nat → UpstreamOutcome)
    (hmiss : geoCache.get st url now = none) :
    (∀ code body, f 0 = .response code (some body) →
      (nominatimProxy st url now true f).2.1 = ⟨code, .data body⟩ ∧
      (code = 200 → body ≠ [] →
        (nominatimProxy st url now true f).1.entries url
          = some ⟨body, now + 24 * hour⟩) ∧
      (¬ (code = 200 ∧ body ≠ []) → (nominatimProxy st url now true f).1 = st)) ∧
    (∀ code, f 0 = .response code none → (nominatimProxy st url now true f).1 = st) ∧
    (f 0 = .transportError → (nominatimProxy st url now true f).1 = st) := by
  have hpos : (0 : Int) < hour := by norm_num [hour]
  have httl : ¬ now + 24 * hour < now := by omega
  refine ⟨?_, ?_, ?_⟩
  · intro code body hf
    refine ⟨?_, ?_, ?_⟩
    · simp [nominatimProxy, hmiss, hf]
    · intro h200 hne
      have hcond : code = 200 ∧ body ≠ [] := ⟨h200, hne⟩
      simp only [nominatimProxy, hmiss, hf, if_pos hcond, if_true]
      exact set_entries_self st url body (24 * hour) now httl
    · intro hcond
      simp [nominatimProxy, hmiss, hf, hcond]
  · intro code hf
    simp [nominatimProxy, hmiss, hf]
  · intro hf
    simp [nominatimProxy, hmiss, hf]

/-- C4 witness: a miss followed by a 200 response with body [1] echoes
status 200 with body [1] and installs the entry with a 24-hour expiry. -/
theorem proxy_populate_passthrough_witness :
    (nominatimProxy emptyGeoCache "u" 7 true
        (fun _ => .response 200 (some [1]))).2.1 = ⟨200, .data [1]⟩ ∧
    (nominatimProxy emptyGeoCache "u" 7 true
        (fun _ => .response 200 (some [1]))).1.entries "u"
      = some ⟨[1], 7 + 24 * hour⟩ := by
  have h := (proxy_populate_passthrough emptyGeoCache "u" 7
      (fun _ => .response 200 (some [1])) rfl).1 200 [1] rfl
  exact ⟨h.1, h.2.1 rfl (by decide)⟩

/-- C4 counterexample to the claim as stated: an upstream response is
received with status 200, but its body read fails (`io.ReadAll` error); the
proxy answers 500 with a local error message rather than the upstream status
200 and body. -/
theorem proxy_read_failure_not_verbatim :
    (nominatimProxy emptyGeoCache "u" 0 true (fun _ => .response 200 none)).2.1
      = ⟨500, .errorText "Erreur lecture réponse geo"⟩ ∧ (500 : Nat) ≠ 200 :=
  ⟨rfl, by decide⟩

/-- C5: on a cache miss, a failure to build the outbound request yields HTTP
500 with no upstream call made, a transport-level failure talking to
upstream yields HTTP 502 after exactly one call, and in every case at most
one upstream call is made (no internal retry). -/
theorem proxy_failure_mapping (st : GeoCacheState) (url : String) (now : Int)
    (f : Nat → UpstreamOutcome) (hmiss : geoCache.get st url now = none) :
    (nominatimProxy st url now false f
      = (st, ⟨500, .errorText "Erreur requête geo"⟩, 0)) ∧
    (f 0 = .transportError →
      nominatimProxy st url now true f
        = (st, ⟨502, .errorText "Service géolocalisation indisponible"⟩, 1)) ∧
    (∀ rb, (nominatimProxy st url now rb f).2.2 ≤ 1) := by
  refine ⟨?_, ?_, ?_⟩
  · simp [nominatimProxy, hmiss]
  · intro hf
    simp [nominatimProxy, hmiss, hf]
  · intro rb
    cases rb
    · simp [nominatimProxy, hmiss]
    · rcases hf : f 0 with _ | ⟨code, body⟩
      · simp [nominatimProxy, hmiss, hf]
      · rcases body with _ | bs
        · simp [nominatimProxy, hmiss, hf]
        · simp only [nominatimProxy, hmiss, hf]
          split <;> simp

/-- C5 witness: on an empty cache, a transport failure maps to 502 with one
upstream call, and a request-build failure maps to 500 with none. -/
theorem proxy_failure_mapping_witness :
    nominatimProxy emptyGeoCache "u" 0 true (fun _ => .transportError)
      = (emptyGeoCache, ⟨502, .errorText "Service géolocalisation indisponible"⟩, 1) ∧
    nominatimProxy emptyGeoCache "u" 0 false (fun _ => .transportError)
      = (emptyGeoCache, ⟨500, .errorText "Erreur requête geo"⟩, 0) := by
  have h := proxy_failure_mapping emptyGeoCache "u" 0 (fun _ => .transportError) rfl
  exact ⟨h.2.1 rfl, h.1⟩

/-- Rounding bound for the proportional height: the floor of
`(2*w*dy + dx) / (2*dx)` (that is, `w*dy/dx` rounded to nearest) differs
from the exact proportional height `w*dy/dx` by strictly less than one. -/
theorem resize_height_bounds (w dy dx : Nat) (hdx : 0 < dx) :
    ((2 * w * dy + dx) / (2 * dx)) * dx < w * dy + dx ∧
    w * dy < ((2 * w * dy + dx) / (2 * dx)) * dx + dx := by
  have hmod := Nat.div_add_mod (2 * w * dy + dx) (2 * dx)
  have hlt : (2 * w * dy + dx) % (2 * dx) < 2 * dx := Nat.mod_lt _ (by omega)
  set q := (2 * w * dy + dx) / (2 * dx) with hq
  set r := (2 * w * dy + dx) % (2 * dx) with hr
  have h1 : 2 * dx * q = 2 * (q * dx) := by ring
  have h2 : 2 * w * dy = 2 * (w * dy) := by ring
  rw [h1, h2] at hmod
  omega

/-- When the config, size and decode stages pass, the image handed to the
JPEG encoder is the decoded image, resized exactly when its width exceeds
`MaxImageWidth`, in every later branch of the pipeline. -/
theorem processed_image_eq (inp : IngestInput) (img : GoImage) (fmt : ImgFormat)
    (hcfg : ¬ (inp.supabaseURL = "" ∨ inp.jwtKey = ""))
    (hsize : oversized inp.headerSize = false)
    (hdec : inp.decodeResult = some (img, fmt)) :
    (processAndUploadImage inp).2.processedImage
      = some (if MaxImageWidth < img.width then resizeToWidth MaxImageWidth img
              else img) := by
  simp only [processAndUploadImage, if_neg hcfg, hsize, Bool.false_eq_true,
    if_false, hdec]
  split
  · split
    · split
      · rfl
      · split
        · rfl
        · rfl
    · rfl
  · rfl

/-- The bytes the pipeline hands to the upload request, when it gets that
far, are always the output of the JPEG encoder at `JpegQuality`. -/
theorem uploadedBytes_shape (inp : IngestInput) :
    (processAndUploadImage inp).2.uploadedBytes = none ∨
    ∃ img2, (processAndUploadImage inp).2.uploadedBytes
      = some (EncodedBytes.jpegData JpegQuality img2) := by
  unfold processAndUploadImage
  split
  · exact Or.inl rfl
  · split
    · exact Or.inl rfl
    · split
      · exact Or.inl rfl
      · dsimp only
        split
        · split
          · split
            · exact Or.inr ⟨_, rfl⟩
            · split
              · exact Or.inr ⟨_, rfl⟩
              · exact Or.inr ⟨_, rfl⟩
          · exact Or.inl rfl
        · exact Or.inl rfl

/-- C6 (spec-modelled resampler): for every successfully decoded image, a
width at most `MaxImageWidth` (1200) passes through unresized (the whole
image, pixels included, is handed on unchanged), while a width above 1200
yields output width exactly 1200 with height within one pixel of exact
proportionality to the input dimensions. -/
theorem resize_threshold (inp : IngestInput) (img : GoImage) (fmt : ImgFormat)
    (hcfg : ¬ (inp.supabaseURL = "" ∨ inp.jwtKey = ""))
    (hsize : oversized inp.headerSize = false)
    (hdec : inp.decodeResult = some (img, fmt)) :
    (img.width ≤ MaxImageWidth →
      (processAndUploadImage inp).2.processedImage = some img) ∧
    (MaxImageWidth < img.width →
      ∃ res, (processAndUploadImage inp).2.processedImage = some res ∧
        res.width = MaxImageWidth ∧
        res.height * img.width < MaxImageWidth * img.height + img.width ∧
        MaxImageWidth * img.height < res.height * img.width + img.width) := by
  have hpi := processed_image_eq inp img fmt hcfg hsize hdec
  constructor
  · intro hle
    rw [hpi, if_neg (not_lt.mpr hle)]
  · intro hgt
    have hdx : 0 < img.width := by
      have : (0 : Nat) < MaxImageWidth := by norm_num [MaxImageWidth]
      omega
    have hb := resize_height_bounds MaxImageWidth img.height img.width hdx
    refine ⟨resizeToWidth MaxImageWidth img, by rw [hpi, if_pos hgt], rfl, ?_, ?_⟩
    · simpa [resizeToWidth] using hb.1
    · simpa [resizeToWidth] using hb.2

/-- C6 witness: a 2400×1000 input is resampled to width 1200 with height
within one pixel of exact proportionality (here 500). -/
theorem resize_threshold_witness :
    ∃ res, (processAndUploadImage bigInput).2.processedImage = some res ∧
      res.width = MaxImageWidth ∧
      res.height * 2400 < MaxImageWidth * 1000 + 2400 ∧
      MaxImageWidth * 1000 < res.height * 2400 + 2400 :=
  (resize_threshold bigInput ⟨2400, 1000, [3]⟩ .jpeg (by decide) (by decide)
    rfl).2 (by decide)

/-- C7: with the storage configuration present, a declared upload size
strictly above `MaxUploadSize` (10 MiB) makes the pipeline fail with the
payload-too-large error before any decode attempt. -/
theorem size_rejection (inp : IngestInput) (s : Int)
    (hcfg : ¬ (inp.supabaseURL = "" ∨ inp.jwtKey = ""))
    (hs : inp.headerSize = some s) (hbig : MaxUploadSize < s) :
    (processAndUploadImage inp).1 = .error .tooLarge ∧
    (processAndUploadImage inp).2.decodeAttempted = false := by
  have hov : oversized inp.headerSize = true := by
    rw [hs]; simp [oversized, hbig]
  constructor <;> simp [processAndUploadImage, if_neg hcfg, hov]

/-- C7 witness: a declared size of 10 MiB + 1 byte is rejected as too large
with no decode attempted. -/
theorem size_rejection_witness :
    (processAndUploadImage c7Input).1 = .error .tooLarge ∧
    (processAndUploadImage c7Input).2.decodeAttempted = false :=
  size_rejection c7Input (10 * 2 ^ 20 + 1) (by decide) rfl (by decide)

/-- C8: every byte blob the pipeline uploads is the output of the JPEG
encoder at quality `JpegQuality` (80) — hence decodes as valid JPEG —
irrespective of the input's container format. -/
theorem jpeg_normalization (inp : IngestInput) (b : EncodedBytes)
    (h : (processAndUploadImage inp).2.uploadedBytes = some b) :
    decodesAsJPEG b = true ∧ ∃ img2, b = EncodedBytes.jpegData JpegQuality img2 := by
  rcases uploadedBytes_shape inp with hn | ⟨img2, hs2⟩
  · rw [hn] at h
    exact absurd h (by simp)
  · rw [hs2] at h
    obtain rfl : EncodedBytes.jpegData JpegQuality img2 = b := Option.some.inj h
    exact ⟨rfl, ⟨img2, rfl⟩⟩

/-- C8 witness: a successful run on a JPEG source uploads bytes tagged as
JPEG at quality 80. -/
theorem jpeg_normalization_witness :
    decodesAsJPEG (EncodedBytes.jpegData JpegQuality ⟨800, 600, [1, 2]⟩) = true ∧
    ∃ img2, (EncodedBytes.jpegData JpegQuality ⟨800, 600, [1, 2]⟩ : EncodedBytes)
      = EncodedBytes.jpegData JpegQuality img2 :=
  jpeg_normalization okInput (EncodedBytes.jpegData JpegQuality ⟨800, 600, [1, 2]⟩)
    (by decide)

/-- C9: when the storage endpoint answers with a non-2xx status, the
pipeline fails with the `httpError` carrying that status line and response
body, and returns no URL. -/
theorem upload_failure_isolation (inp : IngestInput) (img : GoImage)
    (fmt : ImgFormat) (resp : UploadResp)
    (hcfg : ¬ (inp.supabaseURL = "" ∨ inp.jwtKey = ""))
    (hsize : oversized inp.headerSize = false)
    (hdec : inp.decodeResult = some (img, fmt))
    (henc : inp.encodeOk = true)
    (hreq : inp.reqBuildOk = true)
    (hup : inp.uploadResult = some resp)
    (hbad : resp.statusCode < 200 ∨ 300 ≤ resp.statusCode) :
    (processAndUploadImage inp).1
      = .error (.uploadRejected resp.status resp.body) ∧
    ∀ u, (processAndUploadImage inp).1 ≠ Except.ok u := by
  have hmain : (processAndUploadImage inp).1
      = .error (.uploadRejected resp.status resp.body) := by
    simp [processAndUploadImage, if_neg hcfg, hsize, hdec, henc, hreq, hup, hbad]
  refine ⟨hmain, fun u hu => ?_⟩
  rw [hmain] at hu
  exact Except.noConfusion hu

/-- C9 witness: a 403 storage response yields the upload error carrying
"403 Forbidden" and the response body, and no URL. -/
theorem upload_failure_isolation_witness :
    (processAndUploadImage rejInput).1
      = .error (.uploadRejected "403 Forbidden" "denied") ∧
    ∀ u, (processAndUploadImage rejInput).1 ≠ Except.ok u :=
  upload_failure_isolation rejInput ⟨800, 600, []⟩ .png ⟨403, "403 Forbidden", "denied"⟩
    (by decide) (by decide) rfl rfl rfl rfl (by decide)

end Cacao
